import Mathlib

/-!
Shallow embedding of the music-sorter pipeline, translated from
src/parser.py and src/sound_utils.py.  The external collaborators
(filesystem predicates, the fpcalc subprocess, the AcoustID and
MusicBrainz web services, and the filesystem mutations) are modelled as
oracles collected in a `World`; every observable side effect of the
embedded code is recorded in an event trace.  Python exceptions are
modelled with `Except PyErr`; code regions protected by a try/except in
the source absorb the error, everything else propagates it.
-/

/-- Python exception values that the embedded code can raise or absorb. -/
inductive PyErr where
  | typeError
  | valueError
  | nameError (missing : String)
  | osError (op : String)
  deriving DecidableEq

/-- Observable side effects of the pipeline: the fpcalc subprocess
invocation, the two network requests, and the filesystem mutations
(mkdir, copy, unlink).  Logging via print is not recorded. -/
inductive Event where
  | fpcalcRun (file : String)
  | acoustidRequest
  | mbRequest (recordingId : String)
  | mkdir (dir : String)
  | copy (src : String) (dst : String)
  | unlink (file : String)
  deriving DecidableEq

/-- Whitespace characters removed by Python str.strip with no argument
(the core ASCII set; exotic Unicode spaces are not needed here). -/
def pyIsSpace (c : Char) : Bool :=
  c = ' ' || c = '\t' || c = '\n' || c = '\r' || c = '\x0b' || c = '\x0c'

/-- The characters matched by the regex character class at
sound_utils.py line 81, each replaced by an underscore. -/
def forbiddenChar (c : Char) : Bool :=
  c = '<' || c = '>' || c = ':' || c = '\"' || c = '/' || c = '\\' ||
  c = '|' || c = '?' || c = '*' || c = '\n' || c = '\r' || c = '\t'

/-- Python str.strip on a character list: drop whitespace from both ends. -/
def pyStrip (cs : List Char) : List Char :=
  ((cs.dropWhile pyIsSpace).reverse.dropWhile pyIsSpace).reverse

/-- sound_utils.escape_folder_name (lines 74-83): replace each character
of the forbidden class by an underscore, strip surrounding whitespace,
and fall back to the literal "unsorted" when the stripped result is
empty (the Python `or` on a falsy empty string). -/
def escape_folder_name (name : String) : String :=
  match pyStrip (name.toList.map (fun c => if forbiddenChar c then '_' else c)) with
  | [] => "unsorted"
  | c :: cs => String.mk (c :: cs)

/-- Python str.split with a one-character separator: "a\nb".split gives
the segments between separators, with empty segments preserved. -/
def splitOnChar (sep : Char) : List Char → List (List Char)
  | [] => [[]]
  | c :: cs =>
    match splitOnChar sep cs with
    | [] => [[]]
    | h :: t => if c = sep then [] :: h :: t else (c :: h) :: t

/-- Python str.startswith on character lists. -/
def startsWithList : List Char → List Char → Bool
  | [], _ => true
  | _ :: _, [] => false
  | p :: ps, c :: cs => p = c && startsWithList ps cs

/-- Value of a nonempty all-digit character list, else none. -/
def digitsVal (cs : List Char) : Option Nat :=
  if cs = [] then none
  else if cs.all Char.isDigit then
    some (cs.foldl (fun acc c => acc * 10 + (c.toNat - 48)) 0)
  else none

/-- Python int(...) applied to a string: surrounding whitespace is
ignored, an optional sign is allowed, otherwise every character must be
a digit; a failed parse is the ValueError raised by int. -/
def pyInt? (cs : List Char) : Option Int :=
  match pyStrip cs with
  | '-' :: ds => (digitsVal ds).map (fun n => -(n : Int))
  | '+' :: ds => (digitsVal ds).map (fun n => (n : Int))
  | ds => (digitsVal ds).map (fun n => (n : Int))

/-- The line loop of sound_utils.generate_fingerprint (lines 19-23):
later FINGERPRINT= or DURATION= lines overwrite earlier ones; a
DURATION= line whose payload is not an integer raises ValueError, which
escapes the loop (and is then caught by the function's generic except). -/
def parseFpcalcLines : List (List Char) → Option String → Option Int →
    Except PyErr (Option String × Option Int)
  | [], fp, d => Except.ok (fp, d)
  | line :: rest, fp, d =>
    if startsWithList ("FINGERPRINT=".toList) line then
      parseFpcalcLines rest (some (String.mk (line.drop 12))) d
    else if startsWithList ("DURATION=".toList) line then
      match pyInt? (line.drop 9) with
      | some n => parseFpcalcLines rest fp (some n)
      | none => Except.error PyErr.valueError
    else parseFpcalcLines rest fp d

/-- sound_utils.generate_fingerprint (lines 8-30).  The argument is the
outcome of the subprocess.run call: an error models FileNotFoundError
(fpcalc absent) or any other invocation failure, an ok value is the
captured stdout.  Every exception, including the ValueError from int
parsing, is caught inside the function, which then returns Python None;
so the embedding is total and returns none in those cases. -/
def generate_fingerprint (subprocOut : Except PyErr String) :
    Option (Option String × Option Int) :=
  match subprocOut with
  | Except.error _ => none
  | Except.ok out =>
    match parseFpcalcLines (splitOnChar '\n' out.toList) none none with
    | Except.error _ => none
    | Except.ok fd => some fd

/-- A filesystem path as handled through pathlib.Path in parser.py.
Paths are plain strings; parser.py line 71 round-trips the string
through utf-8 encode/decode, which is the identity. -/
structure PyPath where
  path : String
  deriving DecidableEq

/-- pathlib Path.name: the text after the last slash. -/
def PyPath.name (p : PyPath) : String :=
  String.mk ((splitOnChar '/' p.path.toList).getLastD [])

/-- Index of the last occurrence of a dot in a character list. -/
def rfindDotIdx : List Char → Option Nat
  | [] => none
  | c :: cs =>
    match rfindDotIdx cs with
    | some i => some (i + 1)
    | none => if c = '.' then some 0 else none

/-- pathlib Path.suffix on a final component: the text from the last
dot on, provided that dot is neither the first nor the last character
(dotfiles and trailing dots have no suffix). -/
def pySuffix (name : String) : String :=
  match rfindDotIdx name.toList with
  | some i =>
    if 0 < i && i + 1 < name.toList.length then String.mk (name.toList.drop i) else ""
  | none => ""

/-- pathlib Path.suffix of the path's final component. -/
def PyPath.suffix (p : PyPath) : String := pySuffix p.name

/-- One entry of a result's "recordings" list in the AcoustID response;
recording.get("id") yields none when the key is absent or null. -/
structure AcoustidRecording where
  id : Option String
  deriving DecidableEq

/-- One entry of the "results" list in the AcoustID response; the field
is none exactly when the entry has no "recordings" key. -/
structure AcoustidResult where
  recordings : Option (List AcoustidRecording)
  deriving DecidableEq

/-- One entry of the MusicBrainz release-list: optional title and
optional date string. -/
structure PyRelease where
  title : Option String
  date : Option String
  deriving DecidableEq

/-- The "recording" payload of the MusicBrainz response, projected to
the fields parser.py reads: the artist-credit entries (none stands for
an entry that contributes no artist name: not a dict, no "artist" key,
or no name), the title, and the release-list. -/
structure RecordingInfo where
  artistCredit : List (Option String)
  title : Option String
  releaseList : List PyRelease
  deriving DecidableEq

/-- The configuration values threaded through the run. -/
structure RunCfg where
  output_path : String
  order_by : String
  remove_origin : Bool
  batch_size : Nat

/-- Oracles for every external collaborator.  fpcalcOut is the outcome
of the subprocess.run call per file path.  acoustid is the outcome of
recognize_song_acoustid per (fingerprint, duration): an error is an
exception the wrapper does not catch (for example a JSON decode error),
ok none covers the caught RequestException (Python None) as well as a
response without a "results" key or a falsy response, all of which skip
the results loop identically, and ok some is a parsed results list.
mb is the outcome of get_musicbrainz_metadata per recording id: an
error is an exception other than the caught WebServiceError, ok none is
the caught failure (Python None) or an empty falsy payload, ok some is
the recording payload.  mkdirRes and copyRes are the outcomes of the
filesystem mutations; unlink outcomes are not modelled because both
call sites absorb the failure in a try/except of their own. -/
structure World where
  pathExists : String → Bool
  isFile : String → Bool
  fpcalcOut : String → Except PyErr String
  acoustid : String → Int → Except PyErr (Option (List AcoustidResult))
  mb : String → Except PyErr (Option RecordingInfo)
  mkdirRes : String → Except PyErr Unit
  copyRes : String → String → Except PyErr Unit

/-- Python truthiness filter for an optional string: an absent value
and the empty string are both falsy. -/
def truthyStr : Option String → Option String
  | some s => if s = "" then none else some s
  | none => none

/-- The inner for loop of parser.py lines 24-27: the first recording
whose id is truthy decides; entries without a truthy id are skipped. -/
def firstTruthyId (recs : List AcoustidRecording) : Option String :=
  recs.findSome? (fun r => truthyStr r.id)

/-- Destination folder of the unsorted fallback (parser.py line 30). -/
def unsortedDir (cfg : RunCfg) : String := cfg.output_path ++ "/unsorted"

/-- Destination file of the unsorted fallback (parser.py line 32). -/
def unsortedDst (cfg : RunCfg) (f : PyPath) : String :=
  unsortedDir cfg ++ "/" ++ f.name

/-- The unsorted-copy block of parser.py lines 29-44: mkdir the folder,
copy the file, and, when remove_origin is set, unlink the original
inside a try/except that absorbs any deletion failure.  Errors from
mkdir or copy propagate out of this block (they are caught further out,
by the try of process_file). -/
def unsortedStep (w : World) (cfg : RunCfg) (f : PyPath) :
    Except PyErr Unit × List Event :=
  match w.mkdirRes (unsortedDir cfg) with
  | Except.error e => (Except.error e, [Event.mkdir (unsortedDir cfg)])
  | Except.ok _ =>
    match w.copyRes f.path (unsortedDst cfg f) with
    | Except.error e =>
      (Except.error e,
        [Event.mkdir (unsortedDir cfg), Event.copy f.path (unsortedDst cfg f)])
    | Except.ok _ =>
      if cfg.remove_origin then
        (Except.ok (),
          [Event.mkdir (unsortedDir cfg), Event.copy f.path (unsortedDst cfg f),
            Event.unlink f.path])
      else
        (Except.ok (),
          [Event.mkdir (unsortedDir cfg), Event.copy f.path (unsortedDst cfg f)])

/-- The outer for loop over the AcoustID results (parser.py lines
22-45): a result with a "recordings" key returns the MusicBrainz lookup
of the first truthy recording id if there is one (otherwise the loop
continues with the next result); a result without the key runs the
unsorted-copy block and continues; an exhausted loop returns None. -/
def resultsLoop (w : World) (cfg : RunCfg) (f : PyPath) :
    List AcoustidResult → Except PyErr (Option RecordingInfo) × List Event
  | [] => (Except.ok none, [])
  | ⟨some recs⟩ :: rest =>
    match firstTruthyId recs with
    | some rid => (w.mb rid, [Event.mbRequest rid])
    | none => resultsLoop w cfg f rest
  | ⟨none⟩ :: rest =>
    match unsortedStep w cfg f with
    | (Except.error e, tr) => (Except.error e, tr)
    | (Except.ok _, tr) =>
      let x := resultsLoop w cfg f rest
      (x.fst, tr ++ x.snd)

/-- The body of parser.py process_file (lines 15-45), before the
enclosing try/except.  Unpacking the None returned by a failed
generate_fingerprint raises TypeError; a falsy fingerprint or duration
returns None; the guard of line 21 collapses a falsy response and a
response without "results" into skipping the loop. -/
def process_file_body (w : World) (cfg : RunCfg) (f : PyPath) :
    Except PyErr (Option RecordingInfo) × List Event :=
  match generate_fingerprint (w.fpcalcOut f.path) with
  | none => (Except.error PyErr.typeError, [Event.fpcalcRun f.path])
  | some (some fp, some d) =>
    if fp = "" ∨ d = 0 then (Except.ok none, [Event.fpcalcRun f.path])
    else
      match w.acoustid fp d with
      | Except.error e =>
        (Except.error e, [Event.fpcalcRun f.path, Event.acoustidRequest])
      | Except.ok none =>
        (Except.ok none, [Event.fpcalcRun f.path, Event.acoustidRequest])
      | Except.ok (some results) =>
        let x := resultsLoop w cfg f results
        (x.fst, [Event.fpcalcRun f.path, Event.acoustidRequest] ++ x.snd)
  | some _ => (Except.ok none, [Event.fpcalcRun f.path])

/-- parser.py process_file (lines 14-48): the whole body runs inside
try/except Exception, so every raised error is absorbed and mapped to
the Python None result; effects performed before the error remain. -/
def process_file (w : World) (cfg : RunCfg) (f : PyPath) :
    Option RecordingInfo × List Event :=
  match process_file_body w cfg f with
  | (Except.error _, tr) => (none, tr)
  | (Except.ok r, tr) => (r, tr)

/-- The supported-extension list of parser.py line 67. -/
def supportedFormats : List String := [".mp3", ".flac", ".wav", ".ogg"]

/-- Python str.lower on the ASCII extension strings compared here. -/
def pyLower (s : String) : String := String.mk (s.toList.map Char.toLower)

/-- The validity filter of parser.py lines 64-69: the path must exist,
be a regular file, and have a supported extension (lowercased). -/
def validFile (w : World) (f : PyPath) : Bool :=
  w.pathExists f.path && w.isFile f.path &&
    supportedFormats.any (fun ext => ext = pyLower (pySuffix f.name))

/-- Artist names extracted by parser.py lines 77-85: artist-credit
entries that carry a truthy name. -/
def extractArtists (info : RecordingInfo) : List String :=
  info.artistCredit.filterMap truthyStr

/-- Album titles extracted by parser.py lines 93-98: release entries
with a truthy title. -/
def extractAlbums (info : RecordingInfo) : List String :=
  info.releaseList.filterMap (fun r => truthyStr r.title)

/-- Python date.split of parser.py line 106 projected to index 0: the
text before the first dash. -/
def yearOf (s : String) : String :=
  String.mk (s.toList.takeWhile (fun c => !(c = '-')))

/-- Years extracted by parser.py lines 102-106: the year part of every
truthy release date. -/
def extractYears (info : RecordingInfo) : List String :=
  info.releaseList.filterMap (fun r => (truthyStr r.date).map yearOf)

/-- Folder selection of parser.py lines 110-117 for the only case the
code as written can reach without raising (all three extracted lists
empty, so none of the conditional sanitizer calls is evaluated). -/
def defaultFolderName (cfg : RunCfg) : String :=
  if cfg.order_by = "artist" then "Unknown Artist"
  else if cfg.order_by = "album" then "Unknown Album"
  else if cfg.order_by = "year" then "Unknown Year"
  else "unsorted"

/-- Placement of an identified file, parser.py lines 74-137, translated
faithfully: the name escape_folder_name is used there but parser.py
never imports it, so its first evaluation raises NameError — at line 87
when the artist list is nonempty, else at line 99 when the album list
is nonempty, else at line 107 when the year list is nonempty, and
otherwise at line 124, after the destination-folder mkdir of line 121
(whose own failure would propagate first).  No copy is ever reached. -/
def place_identified (w : World) (cfg : RunCfg) (info : RecordingInfo) :
    Except PyErr Unit × List Event :=
  if extractArtists info = [] then
    if extractAlbums info = [] then
      if extractYears info = [] then
        match w.mkdirRes (cfg.output_path ++ "/" ++ defaultFolderName cfg) with
        | Except.error e =>
          (Except.error e, [Event.mkdir (cfg.output_path ++ "/" ++ defaultFolderName cfg)])
        | Except.ok _ =>
          (Except.error (PyErr.nameError ("escape_folder_name")),
            [Event.mkdir (cfg.output_path ++ "/" ++ defaultFolderName cfg)])
      else (Except.error (PyErr.nameError ("escape_folder_name")), [])
    else (Except.error (PyErr.nameError ("escape_folder_name")), [])
  else (Except.error (PyErr.nameError ("escape_folder_name")), [])

/-- Sequential composition of two run fragments: an error in the first
aborts (its trace is kept), otherwise the traces concatenate. -/
def seqComp (x y : Except PyErr Unit × List Event) :
    Except PyErr Unit × List Event :=
  match x with
  | (Except.error e, tr) => (Except.error e, tr)
  | (Except.ok _, tr) => (y.fst, tr ++ y.snd)

/-- One iteration of the per-file loop, parser.py lines 63-137: skip an
invalid file with no effect, otherwise call process_file directly and,
when it returns metadata, run the identified-placement block whose
error would propagate. -/
def processOneInBatch (w : World) (cfg : RunCfg) (f : PyPath) :
    Except PyErr Unit × List Event :=
  if validFile w f then
    match process_file w cfg f with
    | (some info, tr) =>
      let p := place_identified w cfg info
      (p.fst, tr ++ p.snd)
    | (none, tr) => (Except.ok (), tr)
  else (Except.ok (), [])

/-- The per-file loop over one batch, run strictly sequentially in list
order (parser.py calls process_file inline; nothing is submitted to the
executor). -/
def runBatchFiles (w : World) (cfg : RunCfg) :
    List PyPath → Except PyErr Unit × List Event
  | [] => (Except.ok (), [])
  | f :: rest => seqComp (processOneInBatch w cfg f) (runBatchFiles w cfg rest)

/-- The batch loop: batches run one after the other on the same thread. -/
def runBatches (w : World) (cfg : RunCfg) :
    List (List PyPath) → Except PyErr Unit × List Event
  | [] => (Except.ok (), [])
  | b :: rest => seqComp (runBatchFiles w cfg b) (runBatches w cfg rest)

/-- The slicing loop of parser.py line 60-61: files[i : i + batch_size]
for i in range(0, len(files), batch_size).  The fuel argument (the list
length suffices when batch_size is positive) only makes the recursion
structural; Python raises ValueError on a zero step, so every statement
below assumes a positive batch_size. -/
def pyChunksAux : Nat → Nat → List PyPath → List (List PyPath)
  | 0, _, _ => []
  | _ + 1, _, [] => []
  | fuel + 1, bs, f :: rest =>
    ((f :: rest).take bs) :: pyChunksAux fuel bs ((f :: rest).drop bs)

/-- The list of batches. -/
def pyChunks (bs : Nat) (files : List PyPath) : List (List PyPath) :=
  pyChunksAux files.length bs files

/-- parser.py process_files_in_batches (lines 50-137).  The with-block
of line 59 creates a ThreadPoolExecutor for the whole run, but no call
to executor.submit exists anywhere in the file: the loop body invokes
process_file directly, so the run is a sequential traversal of the
batches on the calling thread, and an uncaught error from the
identified-placement block aborts the whole run. -/
def process_files_in_batches (w : World) (cfg : RunCfg) (files : List PyPath) :
    Except PyErr Unit × List Event :=
  runBatches w cfg (pyChunks cfg.batch_size files)

/-- Artist destination folder of parser.py line 87 as intended, with
escape_folder_name bound to sound_utils.escape_folder_name (parser.py
uses the name without importing it): the truthy artist names joined
with an ampersand and sanitized, or the Unknown Artist fallback when
the list is empty. -/
def artistFolder (info : RecordingInfo) : String :=
  if extractArtists info = [] then "Unknown Artist"
  else escape_folder_name (String.intercalate ("&") (extractArtists info))

/-- Album destination folder of parser.py line 99 as intended. -/
def albumFolder (info : RecordingInfo) : String :=
  if extractAlbums info = [] then "Unknown Album"
  else escape_folder_name (String.intercalate ("&") (extractAlbums info))

/-- Year destination folder of parser.py line 107 as intended. -/
def yearFolder (info : RecordingInfo) : String :=
  if extractYears info = [] then "Unknown Year"
  else escape_folder_name (String.intercalate ("&") (extractYears info))

/-- Folder selection of parser.py lines 110-117 as intended. -/
def folder_name_for (order_by : String) (info : RecordingInfo) : String :=
  if order_by = "artist" then artistFolder info
  else if order_by = "album" then albumFolder info
  else if order_by = "year" then yearFolder info
  else "unsorted"

/-- Comma-joined artist display name of parser.py line 86. -/
def artistNameStr (info : RecordingInfo) : String :=
  if extractArtists info = [] then "Unknown Artist"
  else String.intercalate (", ") (extractArtists info)

/-- Destination file name of parser.py line 124 as intended. -/
def destFileName (info : RecordingInfo) (suffix : String) : String :=
  escape_folder_name (artistNameStr info ++ " - " ++ info.title.getD ("Unknown Song") ++ suffix)

/-- Full destination path of parser.py lines 120-125 as intended: a
pure function of the ordering criterion and the recording metadata. -/
def intended_destination (cfg : RunCfg) (info : RecordingInfo) (f : PyPath) : String :=
  cfg.output_path ++ "/" ++ folder_name_for cfg.order_by info ++ "/" ++
    destFileName info f.suffix

/-- Recording ids requested from MusicBrainz, in trace order. -/
def mbPaths (tr : List Event) : List String :=
  tr.filterMap (fun e => match e with | Event.mbRequest i => some i | _ => none)

/-- File paths handed to the fpcalc subprocess, in trace order. -/
def fpPaths (tr : List Event) : List String :=
  tr.filterMap (fun e => match e with | Event.fpcalcRun p => some p | _ => none)

/-- Recognizer for copy events. -/
def isCopyEvent : Event → Bool
  | Event.copy _ _ => true
  | _ => false

/-- The recording id the results loop short-circuits on: the first
truthy id of the first result that has a recordings list containing
one; recordings-less results and results whose entries all lack truthy
ids are passed over. -/
def firstDecision (results : List AcoustidResult) : Option String :=
  results.findSome? (fun r =>
    match r.recordings with
    | some recs => firstTruthyId recs
    | none => none)

/-- Configuration of the concrete scenarios: output root /music/out,
artist ordering, remove_origin off, the default batch size 100. -/
def cfg0 : RunCfg :=
  { output_path := "/music/out", order_by := "artist", remove_origin := false,
    batch_size := 100 }

/-- The same configuration with the year ordering criterion. -/
def cfgYear : RunCfg :=
  { output_path := "/music/out", order_by := "year", remove_origin := false,
    batch_size := 100 }

/-- The candidate .mp3 file of the concrete scenarios. -/
def songFile : PyPath := ⟨"/in/song.mp3"⟩

/-- A second valid .mp3 candidate. -/
def songFileB : PyPath := ⟨"/in/b.mp3"⟩

/-- A .txt file present in the input tree (scenario 5). -/
def txtFile : PyPath := ⟨"/in/notes.txt"⟩

/-- Recording metadata of concrete scenario 1: artist Alice, title
Song, one release titled Album dated 2020-05-01. -/
def aliceInfo : RecordingInfo :=
  { artistCredit := [some ("Alice")], title := some ("Song"),
    releaseList := [{ title := some ("Album"), date := some ("2020-05-01") }] }

/-- A world whose filesystem accepts everything, whose fpcalc emits a
fixed fingerprint and duration, and whose two services respond as the
two arguments say. -/
def baseWorld (resp : Except PyErr (Option (List AcoustidResult)))
    (mbRes : Except PyErr (Option RecordingInfo)) : World :=
  { pathExists := fun _ => true
    isFile := fun _ => true
    fpcalcOut := fun _ => Except.ok ("FINGERPRINT=abc\nDURATION=180")
    acoustid := fun _ _ => resp
    mb := fun _ => mbRes
    mkdirRes := fun _ => Except.ok ()
    copyRes := fun _ _ => Except.ok () }

/-- Scenario-1 world: one result with one recording id R1, MusicBrainz
answering with the Alice metadata. -/
def wAlice : World :=
  baseWorld (Except.ok (some [⟨some [⟨some ("R1")⟩]⟩])) (Except.ok (some aliceInfo))

/-- A world whose AcoustID response holds one result whose recordings
list is present but empty. -/
def wEmptyRecs : World :=
  baseWorld (Except.ok (some [⟨some []⟩])) (Except.ok none)

/-- A world whose AcoustID response holds two results, both without a
recordings list. -/
def wTwoNoRec : World :=
  baseWorld (Except.ok (some [⟨none⟩, ⟨none⟩])) (Except.ok none)

/-- A world whose AcoustID response holds one result carrying exactly
one recording entry, which has no id. -/
def wNoId : World :=
  baseWorld (Except.ok (some [⟨some [⟨none⟩]⟩])) (Except.ok none)

/-- Metadata carrying no artist credit, no title, no releases. -/
def noArtistInfo : RecordingInfo :=
  { artistCredit := [], title := none, releaseList := [] }

/-- Metadata with two artist names, the first containing a forbidden
character. -/
def twoArtistInfo : RecordingInfo :=
  { artistCredit := [some ("A?"), some ("B")], title := none, releaseList := [] }

/-- A world where every external collaborator fails. -/
def wFail : World :=
  { pathExists := fun _ => true
    isFile := fun _ => true
    fpcalcOut := fun _ => Except.error (PyErr.osError ("fpcalc"))
    acoustid := fun _ _ => Except.error PyErr.valueError
    mb := fun _ => Except.error PyErr.valueError
    mkdirRes := fun _ => Except.error (PyErr.osError ("mkdir"))
    copyRes := fun _ _ => Except.error (PyErr.osError ("copy")) }

theorem seqComp_assoc (x y z : Except PyErr Unit × List Event) :
    seqComp (seqComp x y) z = seqComp x (seqComp y z) := by
  obtain ⟨ex, tx⟩ := x
  cases ex with
  | error e => rfl
  | ok u =>
    obtain ⟨ey, ty⟩ := y
    cases ey with
    | error e => rfl
    | ok v => simp [seqComp, List.append_assoc]

theorem runBatchFiles_append (w : World) (cfg : RunCfg) (a b : List PyPath) :
    runBatchFiles w cfg (a ++ b) =
      seqComp (runBatchFiles w cfg a) (runBatchFiles w cfg b) := by
  induction a with
  | nil => simp [runBatchFiles, seqComp]
  | cons f rest ih =>
    simp only [List.cons_append, runBatchFiles, List.append_eq, ih, seqComp_assoc]

theorem runBatches_eq_join (w : World) (cfg : RunCfg) (bss : List (List PyPath)) :
    runBatches w cfg bss = runBatchFiles w cfg bss.flatten := by
  induction bss with
  | nil => rfl
  | cons b rest ih => simp [runBatches, List.flatten_cons, runBatchFiles_append, ih]

theorem pyChunksAux_join (bs : Nat) (hbs : 0 < bs) :
    ∀ fuel files, files.length ≤ fuel → (pyChunksAux fuel bs files).flatten = files := by
  intro fuel
  induction fuel with
  | zero =>
    intro files hf
    have h0 : files = [] := List.length_eq_zero.mp (Nat.le_zero.mp hf)
    subst h0; rfl
  | succ n ih =>
    intro files hf
    cases files with
    | nil => rfl
    | cons f rest =>
      have hlen : ((f :: rest).drop bs).length ≤ n := by
        rw [List.length_drop]
        simp only [List.length_cons] at hf ⊢
        omega
      simp [pyChunksAux, List.flatten_cons, ih _ hlen, List.take_append_drop]

/-- With a positive batch size, batching is semantically inert: the run
is the plain sequential traversal of the file list. -/
theorem batches_eq_seq (w : World) (cfg : RunCfg) (files : List PyPath)
    (hbs : 0 < cfg.batch_size) :
    process_files_in_batches w cfg files = runBatchFiles w cfg files := by
  unfold process_files_in_batches pyChunks
  rw [runBatches_eq_join, pyChunksAux_join cfg.batch_size hbs files.length files (le_refl _)]

/-- Every event of the unsorted-copy block is the unsorted mkdir, the
copy of the file into the unsorted folder, or the unlink of the file. -/
theorem unsortedStep_events (w : World) (cfg : RunCfg) (f : PyPath) :
    ∀ e ∈ (unsortedStep w cfg f).snd,
      e = Event.mkdir (unsortedDir cfg) ∨ e = Event.copy f.path (unsortedDst cfg f) ∨
        e = Event.unlink f.path := by
  intro e he
  cases hmk : w.mkdirRes (unsortedDir cfg) with
  | error e2 =>
    simp [unsortedStep, hmk] at he
    tauto
  | ok u =>
    cases hcp : w.copyRes f.path (unsortedDst cfg f) with
    | error e2 =>
      simp [unsortedStep, hmk, hcp] at he
      tauto
    | ok v =>
      cases hro : cfg.remove_origin with
      | false =>
        simp [unsortedStep, hmk, hcp, hro] at he
        tauto
      | true =>
        simp [unsortedStep, hmk, hcp, hro] at he
        tauto

/-- Every event of the results loop is a MusicBrainz request or one of
the unsorted-copy block events of this file. -/
theorem resultsLoop_events (w : World) (cfg : RunCfg) (f : PyPath) :
    ∀ (results : List AcoustidResult), ∀ e ∈ (resultsLoop w cfg f results).snd,
      (∃ i, e = Event.mbRequest i) ∨ e = Event.mkdir (unsortedDir cfg) ∨
        e = Event.copy f.path (unsortedDst cfg f) ∨ e = Event.unlink f.path := by
  intro results
  induction results with
  | nil => intro e he; simp [resultsLoop] at he
  | cons r rest ih =>
    obtain ⟨orecs⟩ := r
    intro e he
    cases orecs with
    | some recs =>
      cases hid : firstTruthyId recs with
      | some rid =>
        simp only [resultsLoop, hid, List.mem_singleton] at he
        exact Or.inl ⟨rid, he⟩
      | none =>
        simp only [resultsLoop, hid] at he
        exact ih e he
    | none =>
      cases hu : unsortedStep w cfg f with
      | mk eu tu =>
        have hstep := unsortedStep_events w cfg f
        rw [hu] at hstep
        cases eu with
        | error e2 =>
          simp only [resultsLoop, hu] at he
          exact Or.inr (hstep e he)
        | ok u =>
          simp only [resultsLoop, hu, List.mem_append] at he
          rcases he with h | h
          · exact Or.inr (hstep e h)
          · exact ih e h

/-- The trace of process_file is the trace of its body. -/
theorem process_file_snd (w : World) (cfg : RunCfg) (f : PyPath) :
    (process_file w cfg f).snd = (process_file_body w cfg f).snd := by
  unfold process_file
  cases hb : process_file_body w cfg f with
  | mk eb tb => cases eb <;> rfl

/-- Every event of the body of process_file is the fpcalc invocation of
this file, the AcoustID request, a MusicBrainz request, or one of the
unsorted-copy block events of this file. -/
theorem process_file_body_events (w : World) (cfg : RunCfg) (f : PyPath) :
    ∀ e ∈ (process_file_body w cfg f).snd,
      e = Event.fpcalcRun f.path ∨ e = Event.acoustidRequest ∨
        (∃ i, e = Event.mbRequest i) ∨ e = Event.mkdir (unsortedDir cfg) ∨
        e = Event.copy f.path (unsortedDst cfg f) ∨ e = Event.unlink f.path := by
  intro e he
  cases hg : generate_fingerprint (w.fpcalcOut f.path) with
  | none =>
    simp only [process_file_body, hg, List.mem_singleton] at he
    exact Or.inl he
  | some fd =>
    obtain ⟨fo, dur⟩ := fd
    cases fo with
    | none =>
      simp only [process_file_body, hg, List.mem_singleton] at he
      exact Or.inl he
    | some fp =>
      cases dur with
      | none =>
        simp only [process_file_body, hg, List.mem_singleton] at he
        exact Or.inl he
      | some d =>
        by_cases hfd : fp = "" ∨ d = 0
        · simp only [process_file_body, hg, if_pos hfd, List.mem_singleton] at he
          exact Or.inl he
        · cases ha : w.acoustid fp d with
          | error e2 =>
            simp only [process_file_body, hg, if_neg hfd, ha, List.mem_cons,
              List.not_mem_nil, or_false] at he
            tauto
          | ok ores =>
            cases ores with
            | none =>
              simp only [process_file_body, hg, if_neg hfd, ha, List.mem_cons,
                List.not_mem_nil, or_false] at he
              tauto
            | some results =>
              simp only [process_file_body, hg, if_neg hfd, ha, List.cons_append,
                List.nil_append, List.mem_cons] at he
              rcases he with h | h | h
              · exact Or.inl h
              · exact Or.inr (Or.inl h)
              · rcases resultsLoop_events w cfg f results e h with h2 | h2
                · exact Or.inr (Or.inr (Or.inl h2))
                · tauto

/-- Shape of a successful unsorted-copy block without origin removal. -/
theorem unsortedStep_ok_false (w : World) (cfg : RunCfg) (f : PyPath)
    (hmk : w.mkdirRes (unsortedDir cfg) = Except.ok ())
    (hcp : w.copyRes f.path (unsortedDst cfg f) = Except.ok ())
    (hro : cfg.remove_origin = false) :
    unsortedStep w cfg f =
      (Except.ok (), [Event.mkdir (unsortedDir cfg), Event.copy f.path (unsortedDst cfg f)]) := by
  unfold unsortedStep
  rw [hmk, hcp, hro]
  simp

/-- Shape of a successful unsorted-copy block with origin removal. -/
theorem unsortedStep_ok_true (w : World) (cfg : RunCfg) (f : PyPath)
    (hmk : w.mkdirRes (unsortedDir cfg) = Except.ok ())
    (hcp : w.copyRes f.path (unsortedDst cfg f) = Except.ok ())
    (hro : cfg.remove_origin = true) :
    unsortedStep w cfg f =
      (Except.ok (),
        [Event.mkdir (unsortedDir cfg), Event.copy f.path (unsortedDst cfg f),
          Event.unlink f.path]) := by
  unfold unsortedStep
  rw [hmk, hcp, hro]
  simp

/-- Unfolding of the results loop on a leading recordings-less result
when the filesystem operations succeed: the unsorted folder is created,
the file is copied into it, the original is unlinked exactly when
remove_origin is set, and the loop continues with the remaining
results, whose outcome is unchanged. -/
theorem resultsLoop_cons_norec (w : World) (cfg : RunCfg) (f : PyPath)
    (rest : List AcoustidResult)
    (hmk : w.mkdirRes (unsortedDir cfg) = Except.ok ())
    (hcp : w.copyRes f.path (unsortedDst cfg f) = Except.ok ()) :
    resultsLoop w cfg f (⟨none⟩ :: rest) =
      ((resultsLoop w cfg f rest).fst,
        [Event.mkdir (unsortedDir cfg), Event.copy f.path (unsortedDst cfg f)] ++
          (if cfg.remove_origin then [Event.unlink f.path] else []) ++
          (resultsLoop w cfg f rest).snd) := by
  cases hro : cfg.remove_origin with
  | false =>
    have hstep := unsortedStep_ok_false w cfg f hmk hcp hro
    simp [resultsLoop, hstep]
  | true =>
    have hstep := unsortedStep_ok_true w cfg f hmk hcp hro
    simp [resultsLoop, hstep]

/-- When the response contains a decision (some result carrying a
recording entry with a truthy id) and the filesystem operations of any
earlier unsorted fallback succeed, the loop performs exactly one
MusicBrainz request, with the first truthy id of the first such result,
and returns that lookup's outcome. -/
theorem resultsLoop_decision (w : World) (cfg : RunCfg) (f : PyPath)
    (hmk : w.mkdirRes (unsortedDir cfg) = Except.ok ())
    (hcp : w.copyRes f.path (unsortedDst cfg f) = Except.ok ()) :
    ∀ (results : List AcoustidResult) (rid : String),
      firstDecision results = some rid →
      mbPaths (resultsLoop w cfg f results).snd = [rid] ∧
        (resultsLoop w cfg f results).fst = w.mb rid := by
  intro results
  induction results with
  | nil => intro rid h; simp [firstDecision] at h
  | cons r rest ih =>
    obtain ⟨orecs⟩ := r
    intro rid h
    cases orecs with
    | some recs =>
      cases hid : firstTruthyId recs with
      | some rid2 =>
        have hr : rid2 = rid := by
          simp only [firstDecision, List.findSome?_cons, hid] at h
          exact Option.some.inj h
        subst hr
        simp [resultsLoop, hid, mbPaths]
      | none =>
        have h2 : firstDecision rest = some rid := by
          simp only [firstDecision, List.findSome?_cons, hid] at h
          simpa [firstDecision] using h
        simp only [resultsLoop, hid]
        exact ih rid h2
    | none =>
      have h2 : firstDecision rest = some rid := by
        simp only [firstDecision, List.findSome?_cons] at h
        simpa [firstDecision] using h
      obtain ⟨hm, hre⟩ := ih rid h2
      rw [resultsLoop_cons_norec w cfg f rest hmk hcp]
      refine ⟨?_, hre⟩
      cases hro : cfg.remove_origin <;>
        simp [hro, mbPaths, List.filterMap_append] at hm ⊢ <;> exact hm

/-- The trace of the identified-placement block is empty or a single
destination-folder mkdir; in particular it contains no copy event. -/
theorem place_identified_snd (w : World) (cfg : RunCfg) (info : RecordingInfo) :
    (place_identified w cfg info).snd = [] ∨
      ∃ d, (place_identified w cfg info).snd = [Event.mkdir d] := by
  unfold place_identified
  by_cases h1 : extractArtists info = []
  · by_cases h2 : extractAlbums info = []
    · by_cases h3 : extractYears info = []
      · rw [if_pos h1, if_pos h2, if_pos h3]
        cases hmk : w.mkdirRes (cfg.output_path ++ "/" ++ defaultFolderName cfg) with
        | error e => exact Or.inr ⟨_, rfl⟩
        | ok u => exact Or.inr ⟨_, rfl⟩
      · rw [if_pos h1, if_pos h2, if_neg h3]; exact Or.inl rfl
    · rw [if_pos h1, if_neg h2]; exact Or.inl rfl
  · rw [if_neg h1]; exact Or.inl rfl

/-- No copy event is ever emitted by the identified-placement block. -/
theorem place_identified_no_copy (w : World) (cfg : RunCfg) (info : RecordingInfo)
    (src dst : String) : Event.copy src dst ∉ (place_identified w cfg info).snd := by
  intro h
  rcases place_identified_snd w cfg info with h2 | ⟨d, h2⟩ <;> rw [h2] at h <;> simp at h

/-- Every copy event of process_file targets the unsorted destination
of the processed file. -/
theorem process_file_copy (w : World) (cfg : RunCfg) (f : PyPath) (src dst : String)
    (h : Event.copy src dst ∈ (process_file w cfg f).snd) :
    src = f.path ∧ dst = unsortedDst cfg f := by
  rw [process_file_snd] at h
  rcases process_file_body_events w cfg f _ h with h2 | h2 | ⟨i, h2⟩ | h2 | h2 | h2
  · simp at h2
  · simp at h2
  · simp at h2
  · simp at h2
  · simp at h2; exact h2
  · simp at h2

/-- Every fpcalc invocation recorded by process_file is on the
processed file's own path. -/
theorem process_file_fp (w : World) (cfg : RunCfg) (f : PyPath) (q : String)
    (hq : q ∈ fpPaths (process_file w cfg f).snd) : q = f.path := by
  rw [process_file_snd] at hq
  simp only [fpPaths, List.mem_filterMap] at hq
  obtain ⟨e, he, hge⟩ := hq
  rcases process_file_body_events w cfg f e he with h | h | ⟨i, h⟩ | h | h | h <;>
    subst h <;> simp at hge
  exact hge.symm

/-- The validity filter depends only on the path string. -/
theorem validFile_eta (w : World) (f : PyPath) : validFile w ⟨f.path⟩ = validFile w f := by
  cases f; rfl

/-- Trace classifiers distribute over trace concatenation. -/
theorem fpPaths_append (a b : List Event) : fpPaths (a ++ b) = fpPaths a ++ fpPaths b := by
  simp [fpPaths, List.filterMap_append]

/-- Every fpcalc path of one loop iteration is the iterated file's
path, and only a valid file produces any. -/
theorem processOne_fp (w : World) (cfg : RunCfg) (f : PyPath) (q : String)
    (hq : q ∈ fpPaths (processOneInBatch w cfg f).snd) :
    q = f.path ∧ validFile w f = true := by
  by_cases hv : validFile w f
  · refine ⟨?_, hv⟩
    unfold processOneInBatch at hq
    rw [if_pos hv] at hq
    cases hpf : process_file w cfg f with
    | mk md tr =>
      rw [hpf] at hq
      cases md with
      | some info =>
        simp only [fpPaths_append, List.mem_append] at hq
        rcases hq with h | h
        · exact process_file_fp w cfg f q (by rw [hpf]; exact h)
        · exfalso
          rcases place_identified_snd w cfg info with h2 | ⟨d, h2⟩ <;>
            rw [h2] at h <;> simp [fpPaths] at h
      | none =>
        exact process_file_fp w cfg f q (by rw [hpf]; exact hq)
  · rw [processOneInBatch, if_neg hv] at hq
    simp [fpPaths] at hq

/-- Every fpcalc path of a sequential run belongs to a valid file of
the list. -/
theorem runBatchFiles_fp (w : World) (cfg : RunCfg) :
    ∀ (files : List PyPath) (q : String),
      q ∈ fpPaths (runBatchFiles w cfg files).snd →
      ∃ f, f ∈ files ∧ q = f.path ∧ validFile w f = true := by
  intro files
  induction files with
  | nil => intro q hq; simp [runBatchFiles, fpPaths] at hq
  | cons f rest ih =>
    intro q hq
    rw [runBatchFiles] at hq
    cases h1 : processOneInBatch w cfg f with
    | mk e1 t1 =>
      rw [h1] at hq
      cases e1 with
      | error er =>
        simp only [seqComp] at hq
        have := processOne_fp w cfg f q (by rw [h1]; exact hq)
        exact ⟨f, List.mem_cons_self f rest, this⟩
      | ok u =>
        simp only [seqComp, fpPaths_append, List.mem_append] at hq
        rcases hq with h | h
        · have := processOne_fp w cfg f q (by rw [h1]; exact h)
          exact ⟨f, List.mem_cons_self f rest, this⟩
        · obtain ⟨g, hg, hgq⟩ := ih q h
          exact ⟨g, List.mem_cons_of_mem f hg, hgq⟩

/-- If every valid file's process_file outcome is no-metadata, the
whole sequential run completes normally. -/
theorem runBatchFiles_ok (w : World) (cfg : RunCfg) :
    ∀ files : List PyPath,
      (∀ f ∈ files, validFile w f = true → (process_file w cfg f).fst = none) →
      (runBatchFiles w cfg files).fst = Except.ok () := by
  intro files
  induction files with
  | nil => intro h; rfl
  | cons f rest ih =>
    intro h
    have hrest := ih (fun g hg hv => h g (List.mem_cons_of_mem f hg) hv)
    by_cases hv : validFile w f
    · have hf := h f (List.mem_cons_self f rest) hv
      cases hpf : process_file w cfg f with
      | mk md tr =>
        rw [hpf] at hf
        simp only at hf
        subst hf
        simp [runBatchFiles, processOneInBatch, hv, hpf, seqComp, hrest]
    · simp [runBatchFiles, processOneInBatch, hv, seqComp, hrest]

/-- Stripping only removes characters. -/
theorem pyStrip_subset (cs : List Char) : ∀ c, c ∈ pyStrip cs → c ∈ cs := by
  intro c hc
  unfold pyStrip at hc
  rw [List.mem_reverse] at hc
  have h1 : c ∈ (cs.dropWhile pyIsSpace).reverse :=
    (List.dropWhile_sublist _).subset hc
  rw [List.mem_reverse] at h1
  exact (List.dropWhile_sublist _).subset h1

/-- No forbidden character survives sanitization. -/
theorem escape_no_forbidden (s : String) :
    ((escape_folder_name s).toList.all (fun c => !(forbiddenChar c))) = true := by
  unfold escape_folder_name
  cases hs : pyStrip (s.toList.map (fun c => if forbiddenChar c then '_' else c)) with
  | nil => decide
  | cons c cs =>
    rw [List.all_eq_true]
    intro x hx
    have hx2 : x ∈ c :: cs := hx
    have hx3 : x ∈ pyStrip (s.toList.map (fun c => if forbiddenChar c then '_' else c)) := by
      rw [hs]; exact hx2
    have hx4 := pyStrip_subset _ x hx3
    rw [List.mem_map] at hx4
    obtain ⟨y, hy, hxy⟩ := hx4
    by_cases hf : forbiddenChar y = true
    · rw [if_pos hf] at hxy
      subst hxy
      decide
    · rw [if_neg hf] at hxy
      subst hxy
      simp at hf
      simp [hf]

/-- The sanitized name is never the empty string. -/
theorem escape_pos_length (s : String) : 0 < (escape_folder_name s).length := by
  unfold escape_folder_name
  cases hs : pyStrip (s.toList.map (fun c => if forbiddenChar c then '_' else c)) with
  | nil => decide
  | cons c cs =>
    show 0 < (String.mk (c :: cs)).length
    simp [String.length]

/-- Leading spaces of an all-space list consume everything. -/
theorem dropWhile_space_replicate : ∀ n, (List.replicate n ' ').dropWhile pyIsSpace = [] := by
  intro n
  induction n with
  | zero => rfl
  | succ k ih => simp [List.replicate_succ, List.dropWhile_cons, pyIsSpace, ih]

/-- All-space input strips to nothing and hits the unsorted fallback. -/
theorem escape_spaces (n : Nat) :
    escape_folder_name (String.mk (List.replicate n ' ')) = "unsorted" := by
  unfold escape_folder_name
  have hmap : (String.mk (List.replicate n ' ')).toList.map
      (fun c => if forbiddenChar c then '_' else c) = List.replicate n ' ' := by
    have hc : (if forbiddenChar ' ' then '_' else ' ') = ' ' := by decide
    show (List.replicate n ' ').map (fun c => if forbiddenChar c then '_' else c) = _
    rw [List.map_replicate, hc]
  rw [hmap]
  unfold pyStrip
  rw [dropWhile_space_replicate]
  rfl

/-- C1 counterexample: in the scenario-1 world the single file
identifies, and the run aborts with the uncaught NameError raised
inside the identified-placement block — the error escapes the file's
processing instead of becoming a no-placement outcome for that file,
contradicting the claim. -/
theorem C1_counterexample :
    (process_files_in_batches wAlice cfg0 [songFile]).fst =
      Except.error (PyErr.nameError ("escape_folder_name")) := by rfl

/-- C1 (amended): every error raised inside process_file —
fingerprinting, either lookup, the unsorted copy, origin deletion — is
absorbed at that boundary, so whenever no valid file of the run
identifies (process_file yields no metadata, for whatever combination
of collaborator failures), the whole run completes normally; only the
identified-placement block sits outside the protected region and can
abort the run. -/
theorem C1_confinement (w : World) (cfg : RunCfg) (files : List PyPath)
    (hbs : 0 < cfg.batch_size)
    (hnone : ∀ f ∈ files, validFile w f = true → (process_file w cfg f).fst = none) :
    (process_files_in_batches w cfg files).fst = Except.ok () := by
  rw [batches_eq_seq w cfg files hbs]
  exact runBatchFiles_ok w cfg files hnone

/-- Witness for C1: with every collaborator failing on one valid file,
the run still completes normally. -/
theorem C1_witness :
    (process_files_in_batches wFail cfg0 [songFile]).fst = Except.ok () :=
  C1_confinement wFail cfg0 [songFile] (by decide)
    (fun f hf _ => by rw [List.mem_singleton] at hf; subst hf; rfl)

/-- C2: contrary to the claim, no task is ever submitted to the worker
pool (parser.py creates the executor but never calls executor.submit);
with a positive batch size the run equals the strictly sequential,
in-order traversal of the file list by direct calls, so batching has no
semantic effect and there is no concurrency between per-file steps. -/
theorem C2_sequential_run (w : World) (cfg : RunCfg) (files : List PyPath)
    (hbs : 0 < cfg.batch_size) :
    process_files_in_batches w cfg files = runBatchFiles w cfg files :=
  batches_eq_seq w cfg files hbs

/-- Witness for C2 at a concrete two-file run. -/
theorem C2_witness :
    process_files_in_batches wFail cfg0 [songFile, songFileB] =
      runBatchFiles wFail cfg0 [songFile, songFileB] :=
  C2_sequential_run wFail cfg0 [songFile, songFileB] (by decide)

/-- C3 counterexample: the response holds one result whose recordings
list is present but has zero entries; contrary to the claim the file is
not copied to the unsorted folder — the trace has no filesystem event
at all, because the code branches on the absence of the recordings key,
which is present here. -/
theorem C3_counterexample :
    process_file wEmptyRecs cfg0 songFile =
      (none, [Event.fpcalcRun ("/in/song.mp3"), Event.acoustidRequest]) := by rfl

/-- C3 (amended): a result lacking a recordings list, scanned before
any recording id is found, does trigger the unsorted fallback: the
unsorted folder is created, the file is copied verbatim to
output/unsorted/<original name>, the original is deleted right after
the copy exactly when remove_origin is set, and the scan continues with
the remaining results, whose outcome is unchanged. -/
theorem C3_unsorted_fallback (w : World) (cfg : RunCfg) (f : PyPath)
    (rest : List AcoustidResult)
    (hmk : w.mkdirRes (unsortedDir cfg) = Except.ok ())
    (hcp : w.copyRes f.path (unsortedDst cfg f) = Except.ok ()) :
    resultsLoop w cfg f (⟨none⟩ :: rest) =
      ((resultsLoop w cfg f rest).fst,
        [Event.mkdir (unsortedDir cfg), Event.copy f.path (unsortedDst cfg f)] ++
          (if cfg.remove_origin then [Event.unlink f.path] else []) ++
          (resultsLoop w cfg f rest).snd) :=
  resultsLoop_cons_norec w cfg f rest hmk hcp

/-- Witness for C3 at a concrete recordings-less result. -/
theorem C3_witness :
    resultsLoop wTwoNoRec cfg0 songFile [⟨none⟩] =
      ((resultsLoop wTwoNoRec cfg0 songFile []).fst,
        [Event.mkdir (unsortedDir cfg0),
          Event.copy songFile.path (unsortedDst cfg0 songFile)] ++
          (if cfg0.remove_origin then [Event.unlink songFile.path] else []) ++
          (resultsLoop wTwoNoRec cfg0 songFile []).snd) :=
  C3_unsorted_fallback wTwoNoRec cfg0 songFile [] rfl rfl

/-- C4 counterexample: with a response of two recordings-less results,
processing one file performs two copies into the unsorted folder,
contradicting the claimed at-most-once placement. -/
theorem C4_counterexample :
    ((process_file wTwoNoRec cfg0 songFile).snd.countP isCopyEvent) = 2 := by rfl

/-- C4 (amended): placement is not at-most-once, but it is single-
destination: every copy performed while processing a file targets that
file's one unsorted destination (so several unsorted copies can occur,
all to the same path, a later one overwriting), and the
identified-placement block never performs any copy, so a copy into two
different destinations cannot happen. -/
theorem C4_placement_exclusivity :
    (∀ (w : World) (cfg : RunCfg) (f : PyPath) (src dst : String),
        Event.copy src dst ∈ (process_file w cfg f).snd →
        src = f.path ∧ dst = unsortedDst cfg f) ∧
    (∀ (w : World) (cfg : RunCfg) (info : RecordingInfo) (src dst : String),
        Event.copy src dst ∉ (place_identified w cfg info).snd) :=
  ⟨process_file_copy, place_identified_no_copy⟩

/-- Witness for C4 at a concrete copy event of the two-results world. -/
theorem C4_witness :
    ("/in/song.mp3" : String) = songFile.path ∧
      ("/music/out/unsorted/song.mp3" : String) = unsortedDst cfg0 songFile :=
  C4_placement_exclusivity.1 wTwoNoRec cfg0 songFile ("/in/song.mp3")
    ("/music/out/unsorted/song.mp3") (by decide)

/-- C5: at the scenario-1 input the code as written aborts with the
uncaught NameError before deriving any destination path (the sanitizer
is never imported in parser.py), while the intended destination
computation — the same lines 74-125 with escape_folder_name bound to
sound_utils.escape_folder_name — is a pure function of criterion and
metadata yielding exactly the claimed paths for artist and year. -/
theorem C5_destinations :
    (process_files_in_batches wAlice cfg0 [songFile]).fst =
        Except.error (PyErr.nameError ("escape_folder_name")) ∧
      intended_destination cfg0 aliceInfo songFile = "/music/out/Alice/Alice - Song.mp3" ∧
      intended_destination cfgYear aliceInfo songFile = "/music/out/2020/Alice - Song.mp3" :=
  ⟨rfl, rfl, rfl⟩

/-- C6 counterexample: the input consists entirely of forbidden
characters, yet the output is a lone underscore, not the claimed
literal unsorted — replacement underscores survive the strip. -/
theorem C6_counterexample :
    escape_folder_name ("?") = "_" ∧ escape_folder_name ("?") ≠ "unsorted" := by
  constructor
  · rfl
  · decide

/-- C6 (amended): the sanitizer is total; no forbidden character occurs
in any output and the output is never empty; surrounding whitespace is
trimmed; input consisting entirely of spaces yields the literal
unsorted (the empty-after-strip fallback), while input consisting of
forbidden characters yields underscores instead. -/
theorem C6_sanitizer :
    (∀ s : String,
        ((escape_folder_name s).toList.all (fun c => !(forbiddenChar c))) = true ∧
        0 < (escape_folder_name s).length) ∧
    (∀ n : Nat, escape_folder_name (String.mk (List.replicate n ' ')) = "unsorted") ∧
    escape_folder_name ("  a ") = "a" ∧ escape_folder_name ("???") = "___" :=
  ⟨fun s => ⟨escape_no_forbidden s, escape_pos_length s⟩, escape_spaces, rfl, rfl⟩

/-- C7: two parts.  Concretely, when the first file identifies, the run
aborts with the uncaught NameError and the second, valid candidate is
never fingerprinted, contradicting fingerprint-exactly-once-iff-valid.
Generally, a path that fails the validity filter (for example a .txt
file) is never handed to fpcalc in any run. -/
theorem C7_fingerprint_gate :
    ((process_files_in_batches wAlice cfg0 [songFile, songFileB]).fst =
        Except.error (PyErr.nameError ("escape_folder_name")) ∧
      validFile wAlice songFileB = true ∧
      fpPaths (process_files_in_batches wAlice cfg0 [songFile, songFileB]).snd =
        [songFile.path]) ∧
    (∀ (w : World) (cfg : RunCfg) (files : List PyPath) (p : String),
        0 < cfg.batch_size → validFile w ⟨p⟩ = false →
        p ∉ fpPaths (process_files_in_batches w cfg files).snd) := by
  constructor
  · exact ⟨rfl, rfl, rfl⟩
  · intro w cfg files p hbs hinv hmem
    rw [batches_eq_seq w cfg files hbs] at hmem
    obtain ⟨f, _, hq, hv⟩ := runBatchFiles_fp w cfg files p hmem
    rw [hq, validFile_eta, hv] at hinv
    simp at hinv

/-- Witness for C7: the .txt candidate of a concrete run is never
fingerprinted. -/
theorem C7_witness :
    ("/in/notes.txt" : String) ∉
      fpPaths (process_files_in_batches wAlice cfg0 [songFile, txtFile]).snd :=
  C7_fingerprint_gate.2 wAlice cfg0 [songFile, txtFile] ("/in/notes.txt")
    (by decide) (by rfl)

/-- C8 counterexample: the response holds exactly one result, carrying
one recording entry that has no id; contrary to the claim, stage 2 is
never invoked — the trace ends after the AcoustID request with no
MusicBrainz request. -/
theorem C8_counterexample :
    process_file wNoId cfg0 songFile =
      (none, [Event.fpcalcRun ("/in/song.mp3"), Event.acoustidRequest]) := by rfl

/-- C8 (amended): when some result carries a recording entry with a
truthy id (and the filesystem operations of any earlier unsorted
fallback succeed), stage 2 is invoked exactly once, with the first
truthy recording id of the first such result, and the loop returns that
lookup's outcome, short-circuiting all later results; results whose
entries lack truthy ids are passed over instead of stopping the scan. -/
theorem C8_stage2_shortcircuit (w : World) (cfg : RunCfg) (f : PyPath)
    (results : List AcoustidResult) (rid : String)
    (hmk : w.mkdirRes (unsortedDir cfg) = Except.ok ())
    (hcp : w.copyRes f.path (unsortedDst cfg f) = Except.ok ())
    (hdec : firstDecision results = some rid) :
    mbPaths (resultsLoop w cfg f results).snd = [rid] ∧
      (resultsLoop w cfg f results).fst = w.mb rid :=
  resultsLoop_decision w cfg f hmk hcp results rid hdec

/-- Witness for C8 at the scenario-1 response. -/
theorem C8_witness :
    mbPaths (resultsLoop wAlice cfg0 songFile [⟨some [⟨some ("R1")⟩]⟩]).snd = [("R1")] ∧
      (resultsLoop wAlice cfg0 songFile [⟨some [⟨some ("R1")⟩]⟩]).fst =
        wAlice.mb ("R1") :=
  C8_stage2_shortcircuit wAlice cfg0 songFile [⟨some [⟨some ("R1")⟩]⟩] ("R1") rfl rfl rfl

/-- C9: in the code as written computing the artist folder raises the
uncaught NameError (the sanitizer is not imported), shown at the Alice
metadata; the intended artist folder — line 87 with the sanitizer bound
— joins the truthy artist names with an ampersand and sanitizes the
join, with the Unknown Artist fallback exactly when the artist list is
empty. -/
theorem C9_artist_folder :
    place_identified wAlice cfg0 aliceInfo =
        (Except.error (PyErr.nameError ("escape_folder_name")), []) ∧
      artistFolder aliceInfo = "Alice" ∧
      artistFolder noArtistInfo = "Unknown Artist" ∧
      artistFolder twoArtistInfo = "A_&B" :=
  ⟨rfl, rfl, rfl, rfl⟩

/-- C10: process_file is total at its boundary: whenever its body
raises any exception (fingerprinting, either lookup, the unsorted copy
— deletion failures are absorbed even deeper), the result is mapped to
none, and when the body returns normally the result is passed through;
no exception propagates to the caller. -/
theorem C10_process_file_total (w : World) (cfg : RunCfg) (f : PyPath) :
    ((∃ e, (process_file_body w cfg f).fst = Except.error e) →
      (process_file w cfg f).fst = none) ∧
    (∀ r, (process_file_body w cfg f).fst = Except.ok r →
      (process_file w cfg f).fst = r) := by
  constructor
  · rintro ⟨e, he⟩
    cases hb : process_file_body w cfg f with
    | mk eb tb =>
      unfold process_file
      rw [hb]
      have he2 : eb = Except.error e := by rw [hb] at he; exact he
      subst he2
      rfl
  · intro r hr
    cases hb : process_file_body w cfg f with
    | mk eb tb =>
      unfold process_file
      rw [hb]
      have hr2 : eb = Except.ok r := by rw [hb] at hr; exact hr
      subst hr2
      rfl

/-- Witness for C10: with every collaborator failing, the body raises
(the TypeError from unpacking None) and process_file still returns
none. -/
theorem C10_witness : (process_file wFail cfg0 songFile).fst = none :=
  (C10_process_file_total wFail cfg0 songFile).1 ⟨PyErr.typeError, rfl⟩
